import Mathlib

/-!
Verification of the genmetadata repository: a shallow embedding, in Lean, of
the two source modules `metadata_generator.py` and `scrape_urls.py`, together
with theorems settling the frozen specification claims.

Python strings are modelled as lists of characters (`PyStr`), so that length,
slicing and searching coincide with Python semantics on code points.  External
effects (the chat-completion endpoint, language detection, HTTP fetching,
randomness, the wall clock) are modelled as explicit oracles passed to the
embedded functions; each embedded function additionally reports observable
counts (attempts made, network calls issued) so that claims about "no model
call" or "no network call" are statable.
-/

/-- Python strings as lists of characters. -/
abbrev PyStr := List Char

/-- String literal converted to the `PyStr` model. -/
def pstr (s : String) : PyStr := s.toList

/-- Python `str.strip()`: remove leading and trailing whitespace. -/
def pyStrip (s : PyStr) : PyStr :=
  ((s.dropWhile Char.isWhitespace).reverse.dropWhile Char.isWhitespace).reverse

/-- Does `hay` start with `needle`?  (Helper for the Python `in` operator.) -/
def pyStarts : PyStr → PyStr → Bool
  | [], _ => true
  | _ :: _, [] => false
  | a :: as, b :: bs => a == b && pyStarts as bs

/-- Python substring test `needle in hay`. -/
def pyHas (needle : PyStr) : PyStr → Bool
  | [] => needle.isEmpty
  | c :: t => pyStarts needle (c :: t) || pyHas needle t

/-- Python `" ".join(xs)`. -/
def joinSpace (xs : List PyStr) : PyStr := List.intercalate (pstr " ") xs

/-! ## metadata_generator.py -/

/-- `Config` (metadata_generator.py lines 25-45): the two model names. -/
structure Config where
  model_name : String
  review_model_name : String

/-- The default configuration built by `Config.load_config` with no file. -/
def default_config : Config :=
  { model_name := "mixtral-8x7b-32768", review_model_name := "llama-3.3-70b-versatile" }

/-- `ContentProcessor.is_valid` (lines 47-52): the stored text is
`text.strip()`; valid iff truthy (non-empty) and of length at least 50. -/
def is_valid (text : PyStr) : Bool :=
  !(pyStrip text).isEmpty && decide (50 ≤ (pyStrip text).length)

/-- Outcome of one `langdetect.detect` invocation: a detected language code,
or the `LangDetectException` failure. -/
inductive DetectOutcome where
  | detected (lang : String)
  | failure

/-- `ContentProcessor.detect_language` (lines 54-59): the detected code, or
`"en"` when detection raises. -/
def detect_language : DetectOutcome → String
  | .detected l => l
  | .failure => "en"

/-- `MetadataProcessor.truncate_summary` helper: Python
`summary.rfind(".", 0, max_length)` — the greatest index strictly below
`max_length` (and below the length) holding a full stop, if any. -/
def rfind_dot (s : PyStr) (stop : Nat) : Option Nat :=
  (List.range (min stop s.length)).reverse.find? (fun i => s.get? i == some '.')

/-- `MetadataProcessor.truncate_summary` (lines 68-73). -/
def truncate_summary (summary : PyStr) (max_length : Nat) : PyStr :=
  if max_length < summary.length then
    match rfind_dot summary max_length with
    | some last_full_stop => summary.take (last_full_stop + 1)
    | none => summary.take max_length
  else summary

/-- Outcome of one attempt of the provider call inside
`_make_completion_call`: either the call raises, or it returns a response
with a (possibly empty) list of choice texts. -/
inductive CallOutcome where
  | raises (msg : PyStr)
  | responds (choices : List PyStr)

/-- The value one attempt produces (lines 88-98): the stripped first choice,
`""` when there are no choices, or the propagated exception. -/
def callResult : CallOutcome → Except PyStr PyStr
  | .raises m => .error m
  | .responds [] => .ok []
  | .responds (c :: _) => .ok (pyStrip c)

/-- Observable trace of `_make_completion_call`: the final result, the
number of attempts performed, and the backoff sleeps between attempts. -/
structure CallTrace where
  result : Except PyStr PyStr
  attempts : Nat
  sleeps : List ℚ

/-- `MetadataProcessor._make_completion_call` (lines 75-98): the body wrapped
in `backoff.on_exception(backoff.expo, Exception, max_tries=3)`.  The oracle
`g` gives the outcome of the k-th attempt; `j` gives the jittered sleep drawn
before the k-th retry (full jitter over the exponential schedule, so the
caller knows `0 ≤ j k ≤ 2 ^ k`).  Up to 3 attempts are made; the last
failure propagates. -/
def make_completion_call (prompt_text : PyStr) (max_tokens : Nat)
    (temperature : ℚ) (model_name : String)
    (g : Nat → CallOutcome) (j : Nat → ℚ) : CallTrace :=
  match callResult (g 0) with
  | .ok r => ⟨.ok r, 1, []⟩
  | .error _ =>
    match callResult (g 1) with
    | .ok r => ⟨.ok r, 2, [j 0]⟩
    | .error _ =>
      match callResult (g 2) with
      | .ok r => ⟨.ok r, 3, [j 0, j 1]⟩
      | .error m => ⟨.error m, 3, [j 0, j 1]⟩

/-- The fixed sentinel returned by `summarize_content` on invalid content. -/
def summary_sentinel : PyStr := pstr "Content too short or invalid for summarization"

/-- The fixed sentinel returned by `generate_keywords` on invalid content. -/
def keywords_sentinel : PyStr := pstr "Content too short or invalid for keyword generation"

/-- The sentinel substituted by `review_metadata` for an insufficient reply. -/
def insufficient_sentinel : PyStr := pstr "Error: Model provided insufficient recommendations"

/-- The English summarization prompt of `summarize_content` (lines 107-111). -/
def english_summary_prompt (content : PyStr) : PyStr :=
  pstr ("As a search engine optimization expert, using natural language processing, provide a concise, complete summary suitable " ++
    "for a meta description in English. The summary should be informative, use topic-specific terms, in full sentences, " ++
    "and must end concisely within 275 characters. Avoid using ellipses or cutting off sentences.\n\n") ++
  content ++ pstr "\n\nSummary:"

/-- The French summarization prompt of `summarize_content` (lines 112-117). -/
def french_summary_prompt (content : PyStr) : PyStr :=
  pstr ("\xc0 l\x27aide du traitement automatique du langage naturel, fournissez un r\xe9sum\xe9 concis et complet adapt\xe9 " ++
    "\xe0 une m\xe9ta-description en fran\xe7ais. Le r\xe9sum\xe9 doit \xeatre informatif, en phrases compl\xe8tes, " ++
    "et doit se terminer de mani\xe8re concise dans les 275 caract\xe8res. \xc9vitez l\x27utilisation de points de suspension ou de coupures abruptes.\n\n") ++
  content ++ pstr "\n\nR\xe9sum\xe9:"

/-- The keyword-extraction prompt of `generate_keywords` (lines 132-138). -/
def keywords_prompt (content : PyStr) : PyStr :=
  pstr ("As a search engine optimization expert, identify and extract 10 meaningful, topic-specific meta keywords from the following content. " ++
    "Please list the keywords in a comma-separated format only. Do not include any additional notes, explanations, or commentary. " ++
    "Exclude \x27Canada Revenue Agency\x27 from the keywords. " ++
    "Focus strictly on providing the keywords.:\n\n") ++
  content ++ pstr "\n\nKeywords:"

/-- The review prompt of `review_metadata` (lines 152-166). -/
def review_prompt (content description keywords : PyStr) : PyStr :=
  pstr ("You are an expert Search Engine Optimization (SEO) specialist with extensive knowledge in metadata optimization. " ++
    "Review the following content and its metadata with a focus on maximizing search engine visibility and user engagement. " ++
    "Analyze the meta description and keywords for:\n" ++
    "1. Relevance to content\n" ++
    "2. Search engine optimization effectiveness\n" ++
    "3. Keyword density and placement\n" ++
    "4. User engagement potential\n" ++
    "5. Competitive advantage in search results\n\n" ++
    "Provide specific, actionable recommendations for improvements. If the metadata is already optimal, explain why.\n\n" ++
    "Content: ") ++ content ++
  pstr "\n\nCurrent Meta Description: " ++ description ++
  pstr "\n\nCurrent Keywords: " ++ keywords ++
  pstr "\n\nExpert SEO Analysis and Recommendations:"

/-- `MetadataProcessor.summarize_content` (lines 100-125).  Returns the
description together with the number of provider attempts made; an exhausted
retry propagates as `Except.error` (the exception escapes this method). -/
def summarize_content (content : PyStr) (d : DetectOutcome)
    (g : Nat → CallOutcome) (j : Nat → ℚ) : Except PyStr (PyStr × Nat) :=
  if is_valid content = false then .ok (summary_sentinel, 0)
  else
    let language := detect_language d
    let prompt_text :=
      if language = "en" then english_summary_prompt content
      else french_summary_prompt content
    let t := make_completion_call prompt_text 200 (1/2) default_config.model_name g j
    match t.result with
    | .ok summary => .ok (truncate_summary summary 250, t.attempts)
    | .error e => .error e

/-- `MetadataProcessor.generate_keywords` (lines 127-145).  Returns the
keyword string (verbatim) with the number of provider attempts made. -/
def generate_keywords (content : PyStr)
    (g : Nat → CallOutcome) (j : Nat → ℚ) : Except PyStr (PyStr × Nat) :=
  if is_valid content = false then .ok (keywords_sentinel, 0)
  else
    let t := make_completion_call (keywords_prompt content) 80 (3/10) default_config.model_name g j
    match t.result with
    | .ok r => .ok (r, t.attempts)
    | .error e => .error e

/-- `MetadataProcessor.review_metadata` (lines 147-187).  Total: the call is
wrapped in try/except, so exhausted retries become an error string; an empty
or very short reply becomes the insufficiency sentinel. -/
def review_metadata (content description keywords : PyStr)
    (g : Nat → CallOutcome) (j : Nat → ℚ) : PyStr × Nat :=
  let t := make_completion_call (review_prompt content description keywords) 400 (3/10)
    default_config.review_model_name g j
  match t.result with
  | .ok recommendations =>
    (if recommendations.isEmpty || decide ((pyStrip recommendations).length < 10)
     then insufficient_sentinel else recommendations, t.attempts)
  | .error e => (pstr "Error during review: " ++ e, t.attempts)

/-- One output row of `metadata_generator.main` (lines 246-252). -/
structure MetadataRow where
  url : String
  scraped_content : PyStr
  generated_description : PyStr
  generated_keywords : PyStr
  model_recommendations : PyStr

/-- The per-row body of `metadata_generator.main` (lines 237-259): summarize,
extract keywords, review, assemble the row.  An exception escaping the first
two stages is caught by the row-level handler and the row is skipped
(`Except.error`).  Alongside the row, the provider-attempt counts of the
three stages are reported. -/
def process_row (url : String) (content : PyStr) (d : DetectOutcome)
    (gS gK gR : Nat → CallOutcome) (j : Nat → ℚ) :
    Except PyStr (MetadataRow × (Nat × Nat × Nat)) :=
  match summarize_content content d gS j with
  | .error e => .error e
  | .ok (description, nS) =>
    match generate_keywords content gK j with
    | .error e => .error e
    | .ok (keywords, nK) =>
      let r := review_metadata content description keywords gR j
      .ok ({ url := url, scraped_content := content, generated_description := description,
             generated_keywords := keywords, model_recommendations := r.1 }, (nS, nK, r.2))

/-! ## scrape_urls.py -/

/-- `RateLimiter` (scrape_urls.py lines 24-36).  Wall-clock times and delays
are modelled as rationals. -/
structure RateLimiter where
  min_delay : ℚ
  max_delay : ℚ
  last_request_time : ℚ

/-- A fresh `RateLimiter()` with the default delays and zero last time. -/
def RateLimiter.init : RateLimiter := ⟨1, 5, 0⟩

/-- `RateLimiter.wait` (lines 30-36).  `now` is the value of `time.time()` on
entry and `delay` the sample drawn by `random.uniform(min_delay, max_delay)`;
sleeping is modelled as exact, so the method returns at `now + delay` when it
sleeps.  The result is the completion time paired with the updated state
(whose `last_request_time` is the `time.time()` reading taken on exit). -/
def RateLimiter.wait (rl : RateLimiter) (now delay : ℚ) : ℚ × RateLimiter :=
  if now - rl.last_request_time < rl.min_delay then
    (now + delay, { rl with last_request_time := now + delay })
  else
    (now, { rl with last_request_time := now })


mutual
/-- An HTML node as seen through BeautifulSoup: an element with a tag name,
non-class attributes, an optional class list, and children; or a text node.
The children are a bespoke list (`NodeList`) so that all tree traversals are
structurally recursive and computable. -/
inductive HtmlNode where
  | elem (tag : String) (attrs : List (String × String))
         (classes : Option (List String)) (children : NodeList)
  | text (s : PyStr)
inductive NodeList where
  | nil
  | cons (head : HtmlNode) (tail : NodeList)
end

/-- Concatenation of sibling lists. -/
def NodeList.append : NodeList → NodeList → NodeList
  | .nil, l => l
  | .cons n t, l => .cons n (NodeList.append t l)

instance : Append NodeList := ⟨NodeList.append⟩

/-- Sibling list built from an ordinary list (for concrete documents). -/
def nl : List HtmlNode → NodeList
  | [] => .nil
  | n :: t => .cons n (nl t)

/-- Number of siblings. -/
def NodeList.length : NodeList → Nat
  | .nil => 0
  | .cons _ t => 1 + NodeList.length t

/-- The tag name of an element node. -/
def tagOf : HtmlNode → Option String
  | .elem t _ _ _ => some t
  | .text _ => none

/-- The children of a node. -/
def childrenOf : HtmlNode → NodeList
  | .elem _ _ _ c => c
  | .text _ => .nil

mutual
/-- All element descendants (the node itself included when it is an
element), in document (preorder) order: this is the order in which
`find_all` enumerates elements. -/
def elemsNode : HtmlNode → List HtmlNode
  | .text _ => []
  | .elem t a k c => .elem t a k c :: elemsList c
def elemsList : NodeList → List HtmlNode
  | .nil => []
  | .cons n l => elemsNode n ++ elemsList l
end

mutual
/-- `element.get_text()`: all text descendants concatenated. -/
def getText : HtmlNode → PyStr
  | .text s => s
  | .elem _ _ _ c => getTextList c
def getTextList : NodeList → PyStr
  | .nil => []
  | .cons n l => getText n ++ getTextList l
end

/-- Attribute lookup in the non-class attribute list. -/
def attrLookup (attrs : List (String × String)) (k : String) : Option String :=
  (attrs.find? (fun p => p.1 == k)).map (fun p => p.2)

/-- BeautifulSoup matching of a `class_` filter string against the class
attribute of an element: a match of one class in the multi-valued list, or of
the full space-joined attribute value.  Elements without a class attribute do
not match. -/
def classMatch (c : String) : Option (List String) → Bool
  | none => false
  | some l => l.contains c || (String.intercalate " " l == c)

/-- Does element `e` satisfy one attribute filter `kv` of a selector? -/
def attrMatches (e : HtmlNode) (kv : String × String) : Bool :=
  match e with
  | .text _ => false
  | .elem _ attrs classes _ =>
    if kv.1 = "class" then classMatch kv.2 classes
    else attrLookup attrs kv.1 == some kv.2

/-- Does element `e` match `find_all(tag, **selector)`? -/
def matchesSelector (tag : String) (sel : List (String × String)) (e : HtmlNode) : Bool :=
  tagOf e == some tag && sel.all (attrMatches e)

/-- The selector chain of `_find_main_element` (lines 83-87). -/
def main_selectors : List (List (String × String)) :=
  [ [("property", "mainContentOfPage"), ("resource", "#wb-main"), ("typeof", "WebPageElement")],
    [("property", "mainContentOfPage"), ("resource", "#wb-main"), ("typeof", "WebPageElement"),
     ("class", "col-md-9 col-md-push-3")],
    [("role", "main"), ("property", "mainContentOfPage"), ("class", "container")] ]

/-- The acceptance test of `_find_main_element` (line 92): no class
attribute, or a class list containing `container`. -/
def acceptClass : HtmlNode → Bool
  | .elem _ _ none _ => true
  | .elem _ _ (some l) _ => l.contains "container"
  | .text _ => false

/-- `URLScraper._find_main_element` (lines 82-94): for each selector in
order, the first matching `main` element passing the class acceptance test. -/
def find_main_element (doc : HtmlNode) : Option HtmlNode :=
  main_selectors.findSome? (fun sel =>
    ((elemsNode doc).filter (matchesSelector "main" sel)).find? acceptClass)

/-- The boilerplate class signatures of `_extract_content` (lines 97-104). -/
def unwanted_sections : List String :=
  [ "provisional most-requested-bullets well well-sm brdr-0",
    "pagedetails container",
    "lnkbx",
    "pagedetails",
    "gc-prtts",
    "alert alert-info" ]

/-- Does the node match `find_all("section", class_=cls)`? -/
def sectionMatches (cls : String) : HtmlNode → Bool
  | .elem t _ classes _ => t == "section" && classMatch cls classes
  | .text _ => false

mutual
/-- One decompose pass of `_extract_content` (lines 106-109): remove every
section subtree whose class matches `cls`, recursively, keeping document
structure otherwise. -/
def removeSectionsNode (cls : String) : HtmlNode → HtmlNode
  | .text s => .text s
  | .elem t a k c => .elem t a k (removeSectionsList cls c)
def removeSectionsList (cls : String) : NodeList → NodeList
  | .nil => .nil
  | .cons n l =>
    if sectionMatches cls n then removeSectionsList cls l
    else .cons (removeSectionsNode cls n) (removeSectionsList cls l)
end

/-- All six boilerplate passes applied to the main element (its descendants
only: `find_all` never returns the element itself). -/
def stripUnwanted (main : HtmlNode) : HtmlNode :=
  unwanted_sections.foldl (fun m cls => removeSectionsNode cls m) main

mutual
/-- BeautifulSoup `Tag.string`: the single text child, traversing single
element children; `none` as soon as a node has zero or several children. -/
def nodeString : HtmlNode → Option PyStr
  | .text s => some s
  | .elem _ _ _ c => nodeStringList c
def nodeStringList : NodeList → Option PyStr
  | .cons c .nil => nodeString c
  | _ => none
end

/-- The literal phrase matched by the table-of-contents pass (line 111). -/
def otp_phrase : PyStr := pstr "On this page:"

/-- Does the node match `find_all("h2", class_="h3", string=lambda t:
"On this page:" in t)` (line 111)?  The string filter applies to
`Tag.string`; a tag without a string does not match. -/
def isOTP (n : HtmlNode) : Bool :=
  match n with
  | .elem t _ classes _ =>
    t == "h2" && classMatch "h3" classes &&
      (match nodeString n with
       | some s => pyHas otp_phrase s
       | none => false)
  | .text _ => false

/-- Split a sibling list at its first element node: the leading text nodes,
and (when present) the first element together with the remaining siblings.
`find_next_sibling()` skips the leading text nodes. -/
def splitAtElem : NodeList → NodeList × Option (HtmlNode × NodeList)
  | .nil => (.nil, none)
  | .cons (.text s) cs =>
    let p := splitAtElem cs
    (.cons (.text s) p.1, p.2)
  | .cons (.elem t a k c) cs => (.nil, some (.elem t a k c, cs))

theorem splitAtElem_rest_lt :
    ∀ (cs ts : NodeList) (e : HtmlNode) (rest : NodeList),
      splitAtElem cs = (ts, some (e, rest)) → sizeOf rest < sizeOf cs
  | .nil => by intro ts e rest h; simp [splitAtElem] at h
  | .cons (.text s) cs => by
    intro ts e rest h
    have hsnd : (splitAtElem cs).2 = some (e, rest) := by
      have := congrArg Prod.snd h
      simpa [splitAtElem] using this
    have h2 : splitAtElem cs = ((splitAtElem cs).1, (splitAtElem cs).2) := rfl
    rw [hsnd] at h2
    have := splitAtElem_rest_lt cs _ _ _ h2
    simp only [NodeList.cons.sizeOf_spec]
    omega
  | .cons (.elem t a k ch) cs => by
    intro ts e rest h
    have hrest : cs = rest := by
      have := congrArg Prod.snd h
      simp [splitAtElem] at this
      exact this.2
    subst hrest
    simp only [NodeList.cons.sizeOf_spec]
    omega

/-- The table-of-contents removal pass of `_extract_content` (lines
111-116), parameterized by the matching test `sel` on the heading (the
source uses the `h2.h3`-with-string test `isOTP`): scan every sibling list;
a matched heading whose next element sibling is a `ul` is removed together
with that `ul`; otherwise the heading is kept and recursion continues into
children. -/
def otpRemovePass (sel : HtmlNode → Bool) : NodeList → NodeList
  | .nil => .nil
  | .cons (.text s) cs => .cons (.text s) (otpRemovePass sel cs)
  | .cons (.elem t a k c) cs =>
    if sel (.elem t a k c) then
      match h : splitAtElem cs with
      | (ts, some (e, rest)) =>
        if tagOf e == some "ul" then ts ++ otpRemovePass sel rest
        else .cons (.elem t a k (otpRemovePass sel c)) (otpRemovePass sel cs)
      | (_, none) => .cons (.elem t a k (otpRemovePass sel c)) (otpRemovePass sel cs)
    else .cons (.elem t a k (otpRemovePass sel c)) (otpRemovePass sel cs)
  termination_by l => sizeOf l
  decreasing_by
  all_goals simp only [NodeList.cons.sizeOf_spec, HtmlNode.elem.sizeOf_spec]
  · omega
  · have := splitAtElem_rest_lt cs _ _ _ h
    omega
  all_goals omega

/-- The source pass: remove `h2.h3` table-of-contents headings with their
immediately following `ul` sibling, inside the children of a node. -/
def removeOTPNode (n : HtmlNode) : HtmlNode :=
  match n with
  | .text s => .text s
  | .elem t a k c => .elem t a k (otpRemovePass isOTP c)

/-- The allowed tag list of the scraper (line 44). -/
def allowed_tags : List String := ["h1", "h2", "h3", "h4", "p"]

/-- The chat-widget marker phrases of line 122. -/
def chat_markers : List PyStr := [pstr "Chat with Charlie", pstr "Clavardez avec Charlie"]

/-- Does the text of the element contain a chat-widget marker? -/
def hasChatMarker (e : HtmlNode) : Bool :=
  chat_markers.any (fun m => pyHas m (getText e))

/-- `main_element.find_all(tag)`: the element descendants of the main
element carrying the tag, in document order. -/
def find_all_tag (t : String) (main : HtmlNode) : List HtmlNode :=
  (elemsList (childrenOf main)).filter (fun e => tagOf e == some t)

/-- The collection loop of `_extract_content` (lines 118-124): tag types in
the outer loop, document order in the inner loop, skipping `h2` elements
whose text holds a chat-widget marker, stripping each collected text. -/
def collectTexts (main : HtmlNode) : List PyStr :=
  allowed_tags.flatMap (fun t =>
    (find_all_tag t main).filterMap (fun e =>
      if t == "h2" && hasChatMarker e then none
      else some (pyStrip (getText e))))

/-- The final assembly of `_extract_content` (line 126): single-space join,
hard cutoff at 2500 characters. -/
def extractTextsPhase (main : HtmlNode) : PyStr :=
  (joinSpace (collectTexts main)).take 2500

/-- `URLScraper._extract_content` (lines 96-126): boilerplate removal, then
table-of-contents removal, then text collection. -/
def extract_content (main : HtmlNode) : PyStr :=
  extractTextsPhase (removeOTPNode (stripUnwanted main))

/-- The outcome of `urlparse(url)` on the input URL: its scheme and netloc
components, or the raising of an exception. -/
inductive ParseOutcome where
  | parsed (scheme netloc : String)
  | raises

/-- `URLScraper.validate_url` (lines 46-51): `all([scheme, netloc])` demands
both components truthy (non-empty); a parse exception yields `False`. -/
def validate_url : ParseOutcome → Bool
  | .parsed scheme netloc => !(scheme == "") && !(netloc == "")
  | .raises => false

/-- The outcome of the `requests.get` fetch: a response with status code and
parsed document, a timeout, a `RequestException`, or any other exception
raised inside the `try` block. -/
inductive FetchOutcome where
  | success (status_code : Nat) (doc : HtmlNode)
  | timeout
  | requestError (msg : PyStr)
  | otherError (msg : PyStr)

/-- `URLScraper.scrape_url` (lines 53-80), returning the string the method
returns together with the number of network requests issued (0 when
validation rejects the URL before the fetch). -/
def scrape_url (p : ParseOutcome) (f : FetchOutcome) : PyStr × Nat :=
  if validate_url p = false then (pstr "Invalid URL format", 0)
  else
    ((match f with
      | .timeout => pstr "Request timed out"
      | .requestError m => pstr "Request failed: " ++ m
      | .otherError m => m
      | .success status_code doc =>
        if status_code = 301 then pstr "redirected"
        else if status_code ≠ 200 then
          pstr "Failed to fetch content - Status code: " ++ pstr (toString status_code)
        else
          match find_main_element doc with
          | none => pstr "Main element not found on the page"
          | some main => extract_content main), 1)

/-- The exceptions that can cross the body of `scrape_url`. -/
inductive PyExn where
  | timeoutExn
  | requestExn (msg : PyStr)
  | otherExn (msg : PyStr)

/-- The fetch step with its raising semantics made explicit. -/
def fetchRaises : FetchOutcome → Except PyExn (Nat × HtmlNode)
  | .success c d => .ok (c, d)
  | .timeout => .error .timeoutExn
  | .requestError m => .error (.requestExn m)
  | .otherError m => .error (.otherExn m)

/-- `scrape_url` in the exception monad: the `try` body may raise, and the
three `except` clauses (lines 74-80) each convert a raised exception into a
returned string.  An uncaught exception would surface as `Except.error`. -/
def scrape_url_exc (p : ParseOutcome) (f : FetchOutcome) : Except PyExn PyStr :=
  if validate_url p = false then .ok (pstr "Invalid URL format")
  else
    let body : Except PyExn PyStr := do
      let (status_code, doc) ← fetchRaises f
      if status_code = 301 then pure (pstr "redirected")
      else if status_code ≠ 200 then
        pure (pstr "Failed to fetch content - Status code: " ++ pstr (toString status_code))
      else
        match find_main_element doc with
        | none => pure (pstr "Main element not found on the page")
        | some main => pure (extract_content main)
    match body with
    | .ok s => .ok s
    | .error .timeoutExn => .ok (pstr "Request timed out")
    | .error (.requestExn m) => .ok (pstr "Request failed: " ++ m)
    | .error (.otherExn m) => .ok m

/-- The status classification of the specification (spec section 3,
`ScrapeResult.status`). -/
inductive ScrapeStatus where
  | ok
  | invalidURL
  | redirected
  | httpError (code : Nat)
  | timeout
  | networkError
  | noMainElement
deriving DecidableEq

/-- Modelled from the spec: the `ScrapeResult` data model of section 3 —
a status classifying the outcome of each `scrape_url` branch, and a content
field carrying the assembled text on `OK` and the empty string otherwise. -/
def scrapeResultSpec (p : ParseOutcome) (f : FetchOutcome) : ScrapeStatus × PyStr :=
  if validate_url p = false then (.invalidURL, [])
  else
    match f with
    | .timeout => (.timeout, [])
    | .requestError _ => (.networkError, [])
    | .otherError _ => (.networkError, [])
    | .success status_code doc =>
      if status_code = 301 then (.redirected, [])
      else if status_code ≠ 200 then (.httpError status_code, [])
      else
        match find_main_element doc with
        | none => (.noMainElement, [])
        | some main => (.ok, extract_content main)

/-- The fixed string `scrape_url` returns on each failing branch: a function
of the URL validity and the fetch outcome alone, never of the extracted page
text. -/
def failure_message (p : ParseOutcome) (f : FetchOutcome) : PyStr :=
  if validate_url p = false then pstr "Invalid URL format"
  else
    match f with
    | .timeout => pstr "Request timed out"
    | .requestError m => pstr "Request failed: " ++ m
    | .otherError m => m
    | .success status_code _ =>
      if status_code = 301 then pstr "redirected"
      else if status_code ≠ 200 then
        pstr "Failed to fetch content - Status code: " ++ pstr (toString status_code)
      else pstr "Main element not found on the page"

/-! ## Helper lemmas -/

theorem rfind_dot_some (s : PyStr) (m i : Nat) (h : rfind_dot s m = some i) :
    i < min m s.length ∧ s.get? i = some '.' := by
  unfold rfind_dot at h
  have h1 := List.find?_some h
  have h2 := List.mem_of_find?_eq_some h
  refine ⟨?_, ?_⟩
  · have := List.mem_reverse.mp h2
    simpa using List.mem_range.mp this
  · simpa using h1

theorem rfind_dot_none (s : PyStr) (m : Nat) (h : rfind_dot s m = none) :
    ∀ i, i < min m s.length → s.get? i ≠ some '.' := by
  intro i hi
  unfold rfind_dot at h
  have := List.find?_eq_none.mp h i (by simp [List.mem_reverse, List.mem_range, hi])
  simpa using this

theorem getLast?_take_succ (s : PyStr) (i : Nat) (hi : i < s.length) :
    (s.take (i + 1)).getLast? = s.get? i := by
  rw [List.getLast?_eq_getElem?]
  have hlen : (s.take (i + 1)).length = i + 1 := by
    rw [List.length_take]; omega
  rw [hlen, Nat.add_sub_cancel, List.getElem?_take, if_pos (Nat.lt_succ_self i),
    List.get?_eq_getElem?]

/-! ## C2: truncate_summary -/

/-- C2: for every input string and configured max length, the result of
`truncate_summary` has length at most the max length; when the input exceeds
the limit and a full stop occurs at an index below the limit, the result
ends with a full stop; when no full stop occurs below the limit, the result
is the hard cutoff at the limit. -/
theorem c2_truncate_summary_bounds :
    ∀ (s : PyStr) (m : Nat),
      (truncate_summary s m).length ≤ m
      ∧ (m < s.length → ∀ i, i < m → s.get? i = some '.' →
          (truncate_summary s m).getLast? = some '.')
      ∧ (m < s.length → (∀ i, i < m → s.get? i ≠ some '.') →
          truncate_summary s m = s.take m) := by
  intro s m
  refine ⟨?_, ?_, ?_⟩
  · unfold truncate_summary
    split
    · cases h : rfind_dot s m with
      | some i =>
        have hi := (rfind_dot_some s m i h).1
        simp only [List.length_take]
        omega
      | none =>
        simp only [List.length_take]
        omega
    · next hlen => omega
  · intro hlen i hi hdot
    unfold truncate_summary
    rw [if_pos hlen]
    cases h : rfind_dot s m with
    | some j =>
      obtain ⟨hj, hjdot⟩ := rfind_dot_some s m j h
      have hjl : j < s.length := lt_of_lt_of_le hj (min_le_right _ _)
      rw [getLast?_take_succ s j hjl]
      exact hjdot
    | none =>
      exact absurd hdot (rfind_dot_none s m h i (lt_min hi (by omega)))
  · intro hlen hnone
    unfold truncate_summary
    rw [if_pos hlen]
    cases h : rfind_dot s m with
    | some j =>
      obtain ⟨hj, hjdot⟩ := rfind_dot_some s m j h
      exact absurd hjdot (hnone j (lt_of_lt_of_le hj (min_le_left _ _)))
    | none => rfl

/-- Witness for C2 at concrete inputs: a string of length 9 truncated at 5
cuts at its full stop; a dotless string of length 7 truncated at 4 is the
hard four-character cutoff. -/
theorem c2_truncate_summary_bounds_witness :
    (truncate_summary (pstr "ab.cdefgh") 5).length ≤ 5
    ∧ (truncate_summary (pstr "ab.cdefgh") 5).getLast? = some '.'
    ∧ truncate_summary (pstr "zzzzzzz") 4 = (pstr "zzzzzzz").take 4 :=
  ⟨(c2_truncate_summary_bounds (pstr "ab.cdefgh") 5).1,
   (c2_truncate_summary_bounds (pstr "ab.cdefgh") 5).2.1 (by decide) 2 (by decide) (by decide),
   (c2_truncate_summary_bounds (pstr "zzzzzzz") 4).2.2 (by decide) (by decide)⟩

/-! ## C3: sentinels for short content, no gateway call -/

/-- C3: for content whose trimmed length is below 50 characters,
`summarize_content` and `generate_keywords` each return their fixed
sentinel with zero provider attempts — the model gateway is not invoked. -/
theorem c3_short_content_sentinels :
    ∀ (content : PyStr) (d : DetectOutcome) (gS gK : Nat → CallOutcome) (j : Nat → ℚ),
      (pyStrip content).length < 50 →
      summarize_content content d gS j = .ok (summary_sentinel, 0)
      ∧ generate_keywords content gK j = .ok (keywords_sentinel, 0) := by
  intro content d gS gK j h
  have hle : ¬ (50 ≤ (pyStrip content).length) := by omega
  have hv : is_valid content = false := by
    simp [is_valid, hle]
  exact ⟨by simp [summarize_content, hv], by simp [generate_keywords, hv]⟩

/-- Witness for C3: the nine-character content gets both sentinels with zero
attempts. -/
theorem c3_short_content_sentinels_witness :
    summarize_content (pstr "too short") .failure (fun _ => .raises []) (fun _ => 0)
      = .ok (summary_sentinel, 0)
    ∧ generate_keywords (pstr "too short") (fun _ => .raises []) (fun _ => 0)
      = .ok (keywords_sentinel, 0) :=
  c3_short_content_sentinels (pstr "too short") .failure _ _ _ (by decide)

/-! ## C4: retry policy of the model gateway -/

/-- C4: when every attempt raises, `_make_completion_call` performs exactly
three attempts, sleeps twice (full-jittered exponential backoff, so the two
sleeps are bounded by 1 and 2) and propagates the final failure; when the
first attempt raises and the second succeeds, it returns the successful
result after exactly two attempts, with no third attempt. -/
theorem c4_retry_three_attempts :
    ∀ (prompt_text : PyStr) (max_tokens : Nat) (temperature : ℚ) (model_name : String)
      (g : Nat → CallOutcome) (j : Nat → ℚ) (m0 m1 m2 c : PyStr) (cs : List PyStr),
      (∀ k, 0 ≤ j k ∧ j k ≤ 2 ^ k) →
      ((g 0 = .raises m0 → g 1 = .raises m1 → g 2 = .raises m2 →
         make_completion_call prompt_text max_tokens temperature model_name g j
           = ⟨.error m2, 3, [j 0, j 1]⟩ ∧ j 0 ≤ 1 ∧ j 1 ≤ 2)
      ∧ (g 0 = .raises m0 → g 1 = .responds (c :: cs) →
         make_completion_call prompt_text max_tokens temperature model_name g j
           = ⟨.ok (pyStrip c), 2, [j 0]⟩)) := by
  intro p mt temp mn g j m0 m1 m2 c cs hj
  constructor
  · intro h0 h1 h2
    refine ⟨?_, ?_, ?_⟩
    · simp [make_completion_call, h0, h1, h2, callResult]
    · simpa using (hj 0).2
    · simpa using (hj 1).2
  · intro h0 h1
    simp [make_completion_call, h0, h1, callResult]

/-- Witness for C4: an always-raising oracle produces three attempts and the
propagated error; a raise-then-respond oracle produces two attempts and the
successful text. -/
theorem c4_retry_three_attempts_witness :
    make_completion_call [] 0 0 "m" (fun _ => .raises (pstr "boom")) (fun _ => 0)
      = ⟨.error (pstr "boom"), 3, [0, 0]⟩
    ∧ make_completion_call [] 0 0 "m"
        (fun k => if k = 0 then .raises (pstr "boom") else .responds [pstr "ok text"])
        (fun _ => 0)
      = ⟨.ok (pyStrip (pstr "ok text")), 2, [0]⟩ :=
  ⟨((c4_retry_three_attempts [] 0 0 "m" (fun _ => .raises (pstr "boom")) (fun _ => 0)
      (pstr "boom") (pstr "boom") (pstr "boom") [] []
      (fun k => ⟨le_refl 0, by positivity⟩)).1 rfl rfl rfl).1,
   (c4_retry_three_attempts [] 0 0 "m"
      (fun k => if k = 0 then .raises (pstr "boom") else .responds [pstr "ok text"]) (fun _ => 0)
      (pstr "boom") (pstr "boom") (pstr "boom") (pstr "ok text") []
      (fun k => ⟨le_refl 0, by positivity⟩)).2 rfl rfl⟩

/-! ## C9: RateLimiter pacing -/

/-- C9: under the idealized wall-clock model (monotone time, exact sleep),
a `wait` call records its completion time as `last_request_time`, and that
recorded time is at least `min_delay` after the previously recorded time —
so two consecutive `wait` completions are never less than `min_delay`
apart.  The random sleep sample is constrained to the uniform range
`[min_delay, max_delay]`. -/
theorem c9_rate_limiter_min_gap :
    ∀ (rl : RateLimiter) (now d : ℚ),
      rl.min_delay ≤ d → d ≤ rl.max_delay → rl.last_request_time ≤ now →
      (rl.wait now d).2.last_request_time = (rl.wait now d).1
      ∧ rl.min_delay ≤ (rl.wait now d).2.last_request_time - rl.last_request_time := by
  intro rl now d hmin hmax hle
  unfold RateLimiter.wait
  split
  · next h => exact ⟨rfl, by simp; linarith⟩
  · next h => exact ⟨rfl, by simp; linarith⟩

/-- Witness for C9 at concrete values: limiter `⟨1, 5, 0⟩`, entry time 1/2
(elapsed below the minimum), sampled delay 2. -/
theorem c9_rate_limiter_min_gap_witness :
    ((RateLimiter.mk 1 5 0).wait (1/2) 2).2.last_request_time
        = ((RateLimiter.mk 1 5 0).wait (1/2) 2).1
    ∧ (RateLimiter.mk 1 5 0).min_delay
        ≤ ((RateLimiter.mk 1 5 0).wait (1/2) 2).2.last_request_time
          - (RateLimiter.mk 1 5 0).last_request_time :=
  c9_rate_limiter_min_gap (RateLimiter.mk 1 5 0) (1/2) 2
    (by norm_num) (by norm_num) (by norm_num)

/-! ## C5: URL validation short-circuits the fetch -/

/-- C5: a URL whose parse lacks a scheme or lacks a netloc is rejected by
`validate_url`, so `scrape_url` returns the fixed invalid-URL string having
issued zero network requests.  (The code rejects when either component is
missing, not only when both are.) -/
theorem c5_invalid_url_no_fetch :
    ∀ (scheme netloc : String) (f : FetchOutcome),
      scheme = "" ∨ netloc = "" →
      scrape_url (.parsed scheme netloc) f = (pstr "Invalid URL format", 0) := by
  intro s n f h
  have hv : validate_url (.parsed s n) = false := by
    rcases h with h | h <;> simp [validate_url, h]
  simp [scrape_url, hv]

/-- Witness for C5: a URL with a scheme but an empty authority is rejected
without a network call. -/
theorem c5_invalid_url_no_fetch_witness :
    scrape_url (.parsed "https" "") .timeout = (pstr "Invalid URL format", 0) :=
  c5_invalid_url_no_fetch "https" "" .timeout (Or.inr rfl)

/-! ## C7: content is empty unless the status is OK -/

/-- C7: every result of the scraper, read through the ScrapeResult data
model of the spec, has empty content unless its status is OK; on each
failing status the string the code returns is exactly the fixed failure
message of that branch (a value independent of any extracted page text),
and on OK it is the extracted content. -/
theorem c7_content_empty_unless_ok :
    ∀ (p : ParseOutcome) (f : FetchOutcome),
      ((scrapeResultSpec p f).1 ≠ ScrapeStatus.ok →
        (scrapeResultSpec p f).2 = [] ∧ (scrape_url p f).1 = failure_message p f)
      ∧ ((scrapeResultSpec p f).1 = ScrapeStatus.ok →
        (scrape_url p f).1 = (scrapeResultSpec p f).2) := by
  intro p f
  by_cases hv : validate_url p = false
  · simp [scrapeResultSpec, scrape_url, failure_message, hv]
  · cases f with
    | timeout => simp [scrapeResultSpec, scrape_url, failure_message, hv]
    | requestError m => simp [scrapeResultSpec, scrape_url, failure_message, hv]
    | otherError m => simp [scrapeResultSpec, scrape_url, failure_message, hv]
    | success code doc =>
      by_cases h301 : code = 301
      · simp [scrapeResultSpec, scrape_url, failure_message, hv, h301]
      · by_cases h200 : code = 200
        · cases hm : find_main_element doc with
          | none =>
            simp [scrapeResultSpec, scrape_url, failure_message, hv, h301, h200, hm]
          | some main =>
            simp [scrapeResultSpec, scrape_url, failure_message, hv, h301, h200, hm]
        · simp [scrapeResultSpec, scrape_url, failure_message, hv, h301, h200]

/-- Witness for C7: a timed-out fetch of a well-formed URL has empty
spec-level content and returns the fixed timeout message. -/
theorem c7_content_empty_unless_ok_witness :
    (scrapeResultSpec (.parsed "https" "x") .timeout).2 = []
    ∧ (scrape_url (.parsed "https" "x") .timeout).1
        = failure_message (.parsed "https" "x") .timeout :=
  (c7_content_empty_unless_ok (.parsed "https" "x") .timeout).1 (by decide)

/-! ## C10: scrape_url is total at its public interface -/

/-- C10: the exception-transparent embedding of `scrape_url` never ends in
an uncaught exception: for every parse and fetch outcome it produces
`Except.ok` of exactly the string the direct embedding returns — every
failure inside the try block is caught by one of the except clauses and
converted into a returned descriptive string. -/
theorem c10_scrape_url_never_raises :
    ∀ (p : ParseOutcome) (f : FetchOutcome),
      scrape_url_exc p f = Except.ok (scrape_url p f).1 := by
  intro p f
  by_cases hv : validate_url p = false
  · simp [scrape_url_exc, scrape_url, hv, Bind.bind, Except.bind, pure, Except.pure]
  · cases f with
    | timeout => simp [scrape_url_exc, scrape_url, fetchRaises, hv, Bind.bind, Except.bind, pure, Except.pure]
    | requestError m => simp [scrape_url_exc, scrape_url, fetchRaises, hv, Bind.bind, Except.bind, pure, Except.pure]
    | otherError m => simp [scrape_url_exc, scrape_url, fetchRaises, hv, Bind.bind, Except.bind, pure, Except.pure]
    | success code doc =>
      by_cases h301 : code = 301
      · simp [scrape_url_exc, scrape_url, fetchRaises, hv, h301, Bind.bind, Except.bind, pure, Except.pure]
      · by_cases h200 : code = 200
        · cases hm : find_main_element doc with
          | none => simp [scrape_url_exc, scrape_url, fetchRaises, hv, h301, h200, hm, Bind.bind, Except.bind, pure, Except.pure]
          | some main => simp [scrape_url_exc, scrape_url, fetchRaises, hv, h301, h200, hm, Bind.bind, Except.bind, pure, Except.pure]
        · simp [scrape_url_exc, scrape_url, fetchRaises, hv, h301, h200, Bind.bind, Except.bind, pure, Except.pure]

/-! ## C1: the review stage is not skipped for invalid content -/

theorem make_completion_call_attempts_pos
    (p : PyStr) (mt : Nat) (temp : ℚ) (mn : String)
    (g : Nat → CallOutcome) (j : Nat → ℚ) :
    1 ≤ (make_completion_call p mt temp mn g j).attempts := by
  unfold make_completion_call
  cases callResult (g 0) with
  | ok r => simp
  | error e =>
    cases callResult (g 1) with
    | ok r => simp
    | error e2 =>
      cases callResult (g 2) with
      | ok r => simp
      | error m => simp

theorem review_metadata_attempts (c d k : PyStr) (g : Nat → CallOutcome) (j : Nat → ℚ) :
    (review_metadata c d k g j).2
      = (make_completion_call (review_prompt c d k) 400 (3/10)
          default_config.review_model_name g j).attempts := by
  unfold review_metadata
  cases h : (make_completion_call (review_prompt c d k) 400 (3/10)
      default_config.review_model_name g j).result <;> simp [h]

/-- C1 counterexample: on the two-character content, the per-row pipeline
does not skip the review stage — the review model is invoked (one provider
attempt is made for the review, refuting the claimed zero model calls) and
`model_recommendations` carries the model reply, which is neither empty nor
a sentinel. -/
theorem c1_review_not_skipped_counterexample :
    process_row "u" (pstr "hi") DetectOutcome.failure
        (fun _ => CallOutcome.raises []) (fun _ => CallOutcome.raises [])
        (fun _ => CallOutcome.responds
          [pstr "Add more topic-specific keywords to the metadata."])
        (fun _ => 0)
      = Except.ok
          ({ url := "u", scraped_content := pstr "hi",
             generated_description := summary_sentinel,
             generated_keywords := keywords_sentinel,
             model_recommendations :=
               pstr "Add more topic-specific keywords to the metadata." },
           (0, 0, 1))
    ∧ pstr "Add more topic-specific keywords to the metadata." ≠ ([] : PyStr)
    ∧ pstr "Add more topic-specific keywords to the metadata." ≠ insufficient_sentinel :=
  ⟨rfl, by decide, by decide⟩

/-- C1 amended: for every content item failing `is_valid`, description and
keywords are set to their fixed sentinels with zero provider attempts, but
the review stage still runs: `review_metadata` is invoked on the content
and the two sentinels (at least one provider attempt is made), and
`model_recommendations` is its result. -/
theorem c1_invalid_content_review_still_runs :
    ∀ (url : String) (content : PyStr) (d : DetectOutcome)
      (gS gK gR : Nat → CallOutcome) (j : Nat → ℚ),
      is_valid content = false →
      process_row url content d gS gK gR j
        = Except.ok
            ({ url := url, scraped_content := content,
               generated_description := summary_sentinel,
               generated_keywords := keywords_sentinel,
               model_recommendations :=
                 (review_metadata content summary_sentinel keywords_sentinel gR j).1 },
             (0, 0, (review_metadata content summary_sentinel keywords_sentinel gR j).2))
      ∧ 1 ≤ (review_metadata content summary_sentinel keywords_sentinel gR j).2 := by
  intro url content d gS gK gR j h
  refine ⟨?_, ?_⟩
  · simp [process_row, summarize_content, generate_keywords, h]
  · rw [review_metadata_attempts]
    exact make_completion_call_attempts_pos _ _ _ _ _ _

/-- Witness for the amended C1 at the four-character content with an
always-raising review oracle. -/
theorem c1_invalid_content_review_still_runs_witness :
    process_row "w" (pstr "tiny") DetectOutcome.failure
        (fun _ => CallOutcome.raises []) (fun _ => CallOutcome.raises [])
        (fun _ => CallOutcome.raises (pstr "down")) (fun _ => 0)
      = Except.ok
          ({ url := "w", scraped_content := pstr "tiny",
             generated_description := summary_sentinel,
             generated_keywords := keywords_sentinel,
             model_recommendations :=
               (review_metadata (pstr "tiny") summary_sentinel keywords_sentinel
                 (fun _ => CallOutcome.raises (pstr "down")) (fun _ => 0)).1 },
           (0, 0, (review_metadata (pstr "tiny") summary_sentinel keywords_sentinel
                 (fun _ => CallOutcome.raises (pstr "down")) (fun _ => 0)).2))
    ∧ 1 ≤ (review_metadata (pstr "tiny") summary_sentinel keywords_sentinel
            (fun _ => CallOutcome.raises (pstr "down")) (fun _ => 0)).2 :=
  c1_invalid_content_review_still_runs "w" (pstr "tiny") DetectOutcome.failure
    (fun _ => CallOutcome.raises []) (fun _ => CallOutcome.raises [])
    (fun _ => CallOutcome.raises (pstr "down")) (fun _ => 0) (by decide)


/-! ## C6: the table-of-contents removal idiom -/

theorem nodeList_nil_append (l : NodeList) : NodeList.nil ++ l = l := rfl

theorem nodeList_cons_append (n : HtmlNode) (t l : NodeList) :
    NodeList.cons n t ++ l = NodeList.cons n (t ++ l) := rfl

/-- A sibling list consisting of text nodes only. -/
def allText : NodeList → Bool
  | .nil => true
  | .cons (.text _) l => allText l
  | .cons (.elem _ _ _ _) _ => false

theorem otpRemovePass_nil (sel : HtmlNode → Bool) : otpRemovePass sel .nil = .nil := by
  simp [otpRemovePass]

theorem otpRemovePass_text (sel : HtmlNode → Bool) (s : PyStr) (cs : NodeList) :
    otpRemovePass sel (.cons (.text s) cs) = .cons (.text s) (otpRemovePass sel cs) := by
  simp [otpRemovePass]

theorem otpRemovePass_elem_no (sel : HtmlNode → Bool)
    (t : String) (a : List (String × String)) (k : Option (List String))
    (c : NodeList) (cs : NodeList) (h : sel (.elem t a k c) = false) :
    otpRemovePass sel (.cons (.elem t a k c) cs)
      = .cons (.elem t a k (otpRemovePass sel c)) (otpRemovePass sel cs) := by
  rw [otpRemovePass]
  simp [h]

theorem otpRemovePass_elem_ul (sel : HtmlNode → Bool)
    (t : String) (a : List (String × String)) (k : Option (List String))
    (c cs : NodeList) (ts rest : NodeList) (e : HtmlNode)
    (h : sel (.elem t a k c) = true)
    (hs : splitAtElem cs = (ts, some (e, rest)))
    (hul : tagOf e = some "ul") :
    otpRemovePass sel (.cons (.elem t a k c) cs) = ts ++ otpRemovePass sel rest := by
  rw [otpRemovePass]
  simp only [h, if_true]
  split
  · next ts2 e2 rest2 heq =>
    rw [hs] at heq
    simp only [Prod.mk.injEq, Option.some.injEq] at heq
    obtain ⟨h1, h2, h3⟩ := heq
    subst h1; subst h2; subst h3
    simp [hul]
  · next ts2 heq =>
    rw [hs] at heq
    simp at heq

theorem otpRemovePass_elem_keep (sel : HtmlNode → Bool)
    (t : String) (a : List (String × String)) (k : Option (List String))
    (c cs : NodeList) (ts rest : NodeList) (e : HtmlNode)
    (h : sel (.elem t a k c) = true)
    (hs : splitAtElem cs = (ts, some (e, rest)))
    (hul : tagOf e ≠ some "ul") :
    otpRemovePass sel (.cons (.elem t a k c) cs)
      = .cons (.elem t a k (otpRemovePass sel c)) (otpRemovePass sel cs) := by
  rw [otpRemovePass]
  simp only [h, if_true]
  split
  · next ts2 e2 rest2 heq =>
    rw [hs] at heq
    simp only [Prod.mk.injEq, Option.some.injEq] at heq
    obtain ⟨h1, h2, h3⟩ := heq
    subst h1; subst h2; subst h3
    simp [hul]
  all_goals
    next ts2 heq =>
      rw [hs] at heq
      all_goals simp at heq

theorem otpRemovePass_elem_none (sel : HtmlNode → Bool)
    (t : String) (a : List (String × String)) (k : Option (List String))
    (c cs : NodeList) (ts : NodeList)
    (h : sel (.elem t a k c) = true)
    (hs : splitAtElem cs = (ts, none)) :
    otpRemovePass sel (.cons (.elem t a k c) cs)
      = .cons (.elem t a k (otpRemovePass sel c)) (otpRemovePass sel cs) := by
  rw [otpRemovePass]
  simp only [h, if_true]
  split
  · next ts2 e2 rest2 heq =>
    rw [hs] at heq
    simp at heq
  all_goals rfl

theorem splitAtElem_texts :
    ∀ (ts : NodeList), allText ts = true →
      ∀ (t : String) (a : List (String × String)) (k : Option (List String))
        (c rest : NodeList),
        splitAtElem (ts ++ .cons (.elem t a k c) rest) = (ts, some (.elem t a k c, rest))
  | .nil => by
    intro h t a k c rest
    rw [nodeList_nil_append]
    simp [splitAtElem]
  | .cons (.text s) xs => by
    intro h t a k c rest
    have hx : allText xs = true := by simpa [allText] using h
    have hr := splitAtElem_texts xs hx t a k c rest
    rw [nodeList_cons_append]
    simp [splitAtElem, hr]
  | .cons (.elem t2 a2 k2 c2) xs => by
    intro h
    simp [allText] at h

/-- Modelled from the claim wording of C6: a matcher accepting ANY heading
element (h1-h4) whose text contains the literal phrase "On this page:",
regardless of class attributes and of where the phrase sits in the subtree.
The source instead matches only `h2` elements with class `h3` whose
`Tag.string` holds the English phrase. -/
def claimHeadingOTP (n : HtmlNode) : Bool :=
  match n with
  | .elem t _ _ _ =>
    (["h1", "h2", "h3", "h4"].contains t) && pyHas otp_phrase (getText n)
  | .text _ => false

/-- C6 counterexample: a plain `h2` heading (no `h3` class) whose text is
exactly "On this page:" is immediately followed by a `ul`; the claim
demands that extraction remove the heading together with the list, but the
source pass leaves the three siblings unchanged, while the pass built from
the claim wording removes the heading and the list. -/
theorem c6_every_heading_counterexample :
    (otpRemovePass isOTP
        (nl [HtmlNode.elem "h2" [] none (nl [HtmlNode.text (pstr "On this page:")]),
             HtmlNode.elem "ul" [] none
               (nl [HtmlNode.elem "li" [] none (nl [HtmlNode.text (pstr "overview")])]),
             HtmlNode.elem "p" [] none (nl [HtmlNode.text (pstr "hello")])])
      = nl [HtmlNode.elem "h2" [] none (nl [HtmlNode.text (pstr "On this page:")]),
             HtmlNode.elem "ul" [] none
               (nl [HtmlNode.elem "li" [] none (nl [HtmlNode.text (pstr "overview")])]),
             HtmlNode.elem "p" [] none (nl [HtmlNode.text (pstr "hello")])])
    ∧ (otpRemovePass claimHeadingOTP
        (nl [HtmlNode.elem "h2" [] none (nl [HtmlNode.text (pstr "On this page:")]),
             HtmlNode.elem "ul" [] none
               (nl [HtmlNode.elem "li" [] none (nl [HtmlNode.text (pstr "overview")])]),
             HtmlNode.elem "p" [] none (nl [HtmlNode.text (pstr "hello")])])
      = nl [HtmlNode.elem "p" [] none (nl [HtmlNode.text (pstr "hello")])])
    ∧ (nl [HtmlNode.elem "h2" [] none (nl [HtmlNode.text (pstr "On this page:")]),
             HtmlNode.elem "ul" [] none
               (nl [HtmlNode.elem "li" [] none (nl [HtmlNode.text (pstr "overview")])]),
             HtmlNode.elem "p" [] none (nl [HtmlNode.text (pstr "hello")])]
        ≠ nl [HtmlNode.elem "p" [] none (nl [HtmlNode.text (pstr "hello")])]) := by
  have hh2 : isOTP (HtmlNode.elem "h2" [] none
      (nl [HtmlNode.text (pstr "On this page:")])) = false := by decide
  have hul : isOTP (HtmlNode.elem "ul" [] none
      (nl [HtmlNode.elem "li" [] none (nl [HtmlNode.text (pstr "overview")])])) = false := by
    decide
  have hli : isOTP (HtmlNode.elem "li" [] none
      (nl [HtmlNode.text (pstr "overview")])) = false := by decide
  have hp : isOTP (HtmlNode.elem "p" [] none
      (nl [HtmlNode.text (pstr "hello")])) = false := by decide
  have ch2 : claimHeadingOTP (HtmlNode.elem "h2" [] none
      (nl [HtmlNode.text (pstr "On this page:")])) = true := by decide
  have cp : claimHeadingOTP (HtmlNode.elem "p" [] none
      (nl [HtmlNode.text (pstr "hello")])) = false := by decide
  refine ⟨?_, ?_, ?_⟩
  · simp only [nl]
    rw [otpRemovePass_elem_no isOTP _ _ _ _ _ (by simpa [nl] using hh2),
      otpRemovePass_elem_no isOTP _ _ _ _ _ (by simpa [nl] using hul),
      otpRemovePass_elem_no isOTP _ _ _ _ _ (by simpa [nl] using hp),
      otpRemovePass_elem_no isOTP _ _ _ _ _ (by simpa [nl] using hli)]
    rw [otpRemovePass_text, otpRemovePass_text, otpRemovePass_text, otpRemovePass_nil]
  · simp only [nl]
    have hsplit : splitAtElem
        (NodeList.cons
          (HtmlNode.elem "ul" [] none
            (NodeList.cons (HtmlNode.elem "li" [] none
              (NodeList.cons (HtmlNode.text (pstr "overview")) NodeList.nil)) NodeList.nil))
          (NodeList.cons (HtmlNode.elem "p" [] none
            (NodeList.cons (HtmlNode.text (pstr "hello")) NodeList.nil)) NodeList.nil))
        = (NodeList.nil,
           some (HtmlNode.elem "ul" [] none
              (NodeList.cons (HtmlNode.elem "li" [] none
                (NodeList.cons (HtmlNode.text (pstr "overview")) NodeList.nil)) NodeList.nil),
             NodeList.cons (HtmlNode.elem "p" [] none
               (NodeList.cons (HtmlNode.text (pstr "hello")) NodeList.nil)) NodeList.nil)) := rfl
    rw [otpRemovePass_elem_ul claimHeadingOTP _ _ _ _ _ _ _ _
        (by simpa [nl] using ch2) hsplit rfl,
      nodeList_nil_append,
      otpRemovePass_elem_no claimHeadingOTP _ _ _ _ _ (by simpa [nl] using cp),
      otpRemovePass_text, otpRemovePass_nil]
  · intro hcontra
    have := congrArg NodeList.length hcontra
    simp [nl, NodeList.length] at this

/-- C6 amended: the pass removes an `h2` heading carrying class `h3` whose
`Tag.string` contains the literal English phrase "On this page:" together
with its next element sibling when that sibling is a `ul` (any text
siblings in between are kept), and leaves such a heading in place whenever
its next element sibling is absent or is not a `ul`. -/
theorem c6_otp_removal_amended :
    ∀ (a : List (String × String)) (k : Option (List String)) (c : NodeList),
      isOTP (.elem "h2" a k c) = true →
      ((∀ ts : NodeList, allText ts = true →
         ∀ (ua : List (String × String)) (uk : Option (List String))
           (uc rest : NodeList),
           otpRemovePass isOTP
               (.cons (.elem "h2" a k c) (ts ++ .cons (.elem "ul" ua uk uc) rest))
             = ts ++ otpRemovePass isOTP rest)
      ∧ (∀ cs : NodeList,
           (∀ ts e rest, splitAtElem cs = (ts, some (e, rest)) → tagOf e ≠ some "ul") →
           otpRemovePass isOTP (.cons (.elem "h2" a k c) cs)
             = .cons (.elem "h2" a k (otpRemovePass isOTP c)) (otpRemovePass isOTP cs))) := by
  intro a k c hotp
  constructor
  · intro ts hts ua uk uc rest
    exact otpRemovePass_elem_ul isOTP _ _ _ _ _ _ _ _ hotp
      (splitAtElem_texts ts hts _ _ _ _ _) rfl
  · intro cs hne
    rcases hsp : splitAtElem cs with ⟨ts, o⟩
    cases o with
    | none => exact otpRemovePass_elem_none isOTP _ _ _ _ _ _ hotp hsp
    | some pr =>
      obtain ⟨e, rest⟩ := pr
      exact otpRemovePass_elem_keep isOTP _ _ _ _ _ _ _ _ hotp hsp (hne ts e rest hsp)

/-- Witness for the amended C6: a matching `h2.h3` heading directly followed
by a `ul` is removed with it; the same heading with no following element
sibling is kept. -/
theorem c6_otp_removal_amended_witness :
    otpRemovePass isOTP
        (.cons (.elem "h2" [] (some ["h3"]) (nl [HtmlNode.text (pstr "On this page: topics")]))
          (.cons (.elem "ul" [] none .nil) .nil))
      = otpRemovePass isOTP .nil
    ∧ otpRemovePass isOTP
        (.cons (.elem "h2" [] (some ["h3"]) (nl [HtmlNode.text (pstr "On this page: topics")]))
          .nil)
      = .cons
          (.elem "h2" [] (some ["h3"])
            (otpRemovePass isOTP (nl [HtmlNode.text (pstr "On this page: topics")])))
          (otpRemovePass isOTP .nil) :=
  ⟨(c6_otp_removal_amended [] (some ["h3"]) (nl [HtmlNode.text (pstr "On this page: topics")])
      (by decide)).1 .nil (by decide) [] none .nil .nil,
   (c6_otp_removal_amended [] (some ["h3"]) (nl [HtmlNode.text (pstr "On this page: topics")])
      (by decide)).2 .nil
      (by intro ts e rest hsp; simp [splitAtElem] at hsp)⟩

/-! ## C8: text extraction order, chat filter, join and cutoff -/

theorem mem_find_all_tag {t : String} {main : HtmlNode} {e : HtmlNode}
    (h : e ∈ find_all_tag t main) : tagOf e = some t := by
  unfold find_all_tag at h
  have := List.of_mem_filter h
  simpa using this

theorem collect_chunk (t : String) (l : List HtmlNode)
    (h : ∀ e ∈ l, tagOf e = some t) :
    l.filterMap (fun e =>
        if t == "h2" && hasChatMarker e then none
        else some (pyStrip (getText e)))
      = (l.filter (fun e => !(decide (tagOf e = some "h2") && hasChatMarker e))).map
          (fun e => pyStrip (getText e)) := by
  induction l with
  | nil => simp
  | cons x xs ih =>
    have hx : tagOf x = some t := h x (by simp)
    have hrec := ih (fun e he => h e (by simp [he]))
    by_cases ht : t = "h2"
    · subst ht
      by_cases hchat : hasChatMarker x = true
      · simp [hx, hchat]
        simpa using hrec
      · simp [hx, hchat]
        simpa using hrec
    · have h1 : (t == "h2") = false := by simpa using ht
      simp [h1, hx, ht]
      simpa [h1] using hrec

/-- Modelled from the spec wording of the extraction step: for each tag type
of the allowed list in order, take the matching elements in document order,
exclude any `h2` whose text contains a chat-widget marker, and collect the
stripped text of each. -/
def collectTextsSpec (main : HtmlNode) : List PyStr :=
  allowed_tags.flatMap (fun t =>
    ((find_all_tag t main).filter
        (fun e => !(decide (tagOf e = some "h2") && hasChatMarker e))).map
      (fun e => pyStrip (getText e)))

/-- C8: the text-collection phase equals the spec description — tag types in
the outer loop (h1, h2, h3, h4, p), document order within each type,
chat-marker `h2` headings excluded, texts joined by a single space and hard
cut at 2500 characters — and its output never exceeds 2500 characters. -/
theorem c8_extraction_order_and_cutoff :
    ∀ main : HtmlNode,
      extractTextsPhase main = (joinSpace (collectTextsSpec main)).take 2500
      ∧ (extractTextsPhase main).length ≤ 2500 := by
  intro main
  constructor
  · unfold extractTextsPhase collectTexts collectTextsSpec
    congr 2
    simp only [allowed_tags, List.flatMap_cons, List.flatMap_nil, List.append_nil]
    rw [collect_chunk "h1" _ (fun e he => mem_find_all_tag he),
      collect_chunk "h2" _ (fun e he => mem_find_all_tag he),
      collect_chunk "h3" _ (fun e he => mem_find_all_tag he),
      collect_chunk "h4" _ (fun e he => mem_find_all_tag he),
      collect_chunk "p" _ (fun e he => mem_find_all_tag he)]
  · unfold extractTextsPhase
    rw [List.length_take]
    exact min_le_left _ _
